import Mathlib

/-!
Verification development for the air-tracker fetch-cache-retry-orchestrate-
normalize pipeline.

The definitions below are a shallow embedding of the repository's coherent
pipeline: `config.py` (endpoint templates and limits), the
`AeroDataBoxClient` of `swagger_clients.py` (rate gate, TTL cache, retry
loop, batch fetch), the storage layer of `database.py` (sqlite tables and
their uniqueness constraints) together with the store methods of
`data_fetcher.py` (`SmartDataFetcher`) and `data_orchestrator.py`
(`DataOrchestrator`).

Modelling conventions:
- wall-clock time is a rational number of seconds; `time.sleep(d)` advances
  the clock by `d`; code between sleeps runs instantaneously;
- JSON payloads are the `Json` inductive below; Python dict/attribute
  errors surface as the `.error` case of `Except String`;
- the md5 request fingerprint is modelled by the hashed text itself
  (endpoint name with the sorted parameter list), i.e. hashing is treated
  as injective;
- sqlite `INSERT OR REPLACE` deletes the rows that collide with the new row
  on a declared uniqueness constraint of the table and then inserts; each
  table's model carries exactly the constraints `database.py` declares.
-/

namespace AirTracker

/-! ## JSON payloads and the Python primitives the store methods use -/

/-- A JSON value as the Python code sees API payloads: `null` is Python
`None`; objects are dicts with string keys in insertion order. -/
inductive Json where
  | null : Json
  | str (s : String) : Json
  | num (q : ℚ) : Json
  | obj (fields : List (String × Json)) : Json
  | arr (elems : List Json) : Json
deriving Repr, Inhabited, BEq

/-- Python truthiness of a payload value: `None`, `""`, `0`, `{}` and `[]`
are falsy, everything else truthy. -/
def Json.truthy : Json → Bool
  | .null => false
  | .str s => !s.isEmpty
  | .num q => !(q == 0)
  | .obj fs => !fs.isEmpty
  | .arr es => !es.isEmpty

/-- Python `d.get(k, dflt)`. A key that is present keeps its value even when
that value is `null`, exactly as in Python; a missing key yields the
default. Calling `.get` on a non-dict raises `AttributeError`, which is the
`.error` case. -/
def Json.getD : Json → String → Json → Except String Json
  | .obj fs, k, dflt =>
    .ok (match fs.find? (fun p => p.1 == k) with
          | some p => p.2
          | none => dflt)
  | _, _, _ => .error "AttributeError"

/-- Python `d.get(k)`: the default is `None`. -/
def Json.get (j : Json) (k : String) : Except String Json :=
  j.getD k .null

/-- Python `k in d` for a dict (the only shape the embedded code probes). -/
def Json.hasKey : Json → String → Bool
  | .obj fs, k => fs.any (fun p => p.1 == k)
  | _, _ => false

/-- Python `d[k]`: `KeyError` when the key is missing, `TypeError` on a
non-dict. -/
def Json.item : Json → String → Except String Json
  | .obj fs, k =>
    (match fs.find? (fun p => p.1 == k) with
      | some p => .ok p.2
      | none => .error "KeyError")
  | _, _ => .error "TypeError"

/-- Elements of a JSON array (Python list); list slicing `xs[:n]` is
`List.take n` of this; iterating a non-list raises `TypeError`. -/
def Json.elems : Json → Except String (List Json)
  | .arr es => .ok es
  | _ => .error "TypeError"

/-- Python `str()` restricted to the value shapes that reach it in the store
methods: strings pass through, `None` prints as `"None"`, whole numbers
print their integer digits. Dict and list reprs never occur at the fields
the claims evaluate. -/
def pyStr : Json → String
  | .str s => s
  | .null => "None"
  | .num q => if q.den = 1 then toString q.num else toString q
  | .obj _ => "<dict>"
  | .arr _ => "<list>"

/-- Python `int(x)`: numbers truncate toward zero, decimal strings parse,
`None` and the remaining shapes raise. -/
def pyInt : Json → Except String Int
  | .num q => .ok (q.num.tdiv q.den)
  | .str s =>
    (match s.toInt? with
      | some n => .ok n
      | none => .error "ValueError")
  | _ => .error "TypeError"

/-- Python `float(x)` for the shapes reaching it here: numbers pass through,
everything else raises (the API sends these fields as JSON numbers, so the
string-parsing case of Python `float` is not exercised). -/
def pyFloat : Json → Except String ℚ
  | .num q => .ok q
  | _ => .error "TypeError"

/-! ## config.py -/

def API_HOST : String := "aerodatabox.p.rapidapi.com"

def BASE_URL : String := "https://" ++ API_HOST

/-- The ENDPOINTS table of config.py, name to path template. A literal brace
of a template is written with its escapes. -/
def ENDPOINTS : List (String × String) := [
  ("AIRPORT_INFO", "/airports/\x7bcode\x7d"),
  ("AIRPORT_RUNWAYS", "/airports/\x7bcode\x7d/runways"),
  ("SEARCH_AIRPORTS_LOCATION", "/airports/search/location"),
  ("SEARCH_AIRPORTS_IP", "/airports/search/ip"),
  ("SEARCH_AIRPORTS_TEXT", "/airports/search/text"),
  ("AIRPORT_SCHEDULE", "/flights/airports/\x7bcode\x7d/\x7bdirection\x7d"),
  ("FLIGHT_STATUS", "/flights/\x7bflightNumber\x7d/\x7bdate\x7d"),
  ("FLIGHT_HISTORY", "/flights/\x7bidentifier\x7d/range/\x7bfromDate\x7d/\x7btoDate\x7d"),
  ("FLIGHT_DATES", "/flights/\x7bidentifier\x7d/dates"),
  ("SEARCH_FLIGHTS", "/flights/search/term"),
  ("AIRCRAFT_INFO", "/aircraft/\x7bregistration\x7d"),
  ("AIRCRAFT_REGISTRATION_HISTORY", "/aircraft/\x7bidentifier\x7d/registrations"),
  ("AIRLINE_FLEET", "/airlines/\x7bicao\x7d/fleet"),
  ("AIRCRAFT_PHOTO", "/aircraft/\x7bregistration\x7d/photo"),
  ("SEARCH_AIRCRAFT", "/aircraft/search/term"),
  ("AIRPORT_DELAYS", "/airports/\x7bcode\x7d/delays"),
  ("AIRPORT_ROUTES", "/airports/\x7bcode\x7d/statistics/routes/daily"),
  ("FLIGHT_DELAY_STATS", "/flights/\x7bflightNumber\x7d/statistics/delays"),
  ("GLOBAL_DELAYS", "/statistics/delays/global"),
  ("AIRPORT_TIME", "/airports/\x7bcode\x7d/time/local"),
  ("AIRPORT_SUN_TIMES", "/airports/\x7bcode\x7d/time/sun"),
  ("DISTANCE_BETWEEN", "/airports/distance/\x7bfromCode\x7d/\x7btoCode\x7d"),
  ("FLIGHT_TIME", "/flights/time/\x7bfromCode\x7d/\x7btoCode\x7d"),
  ("AIRPORT_WEATHER", "/airports/\x7bcode\x7d/weather"),
  ("COUNTRIES_LIST", "/countries")]

namespace DATA_LIMITS

def max_airports : Nat := 6
def max_flights_per_airport : Nat := 25
def max_aircraft : Nat := 15
def cache_duration_seconds : ℚ := 300
def max_retries : Nat := 3
def retry_delay : ℚ := 1

end DATA_LIMITS

/-- Replacement of every non-overlapping occurrence of `pat` (leftmost
first) by `rep` in a character list, fuelled by the length of the input so
the recursion is structural; one character is consumed per step at least,
so the fuel `s.length` never runs out. An empty `pat` leaves the input
unchanged; the patterns built by `get_endpoint_url` are never empty. -/
def replaceChars (pat rep : List Char) : Nat → List Char → List Char
  | 0, s => s
  | _ + 1, [] => []
  | fuel + 1, c :: rest =>
    if !pat.isEmpty && pat.isPrefixOf (c :: rest) then
      rep ++ replaceChars pat rep fuel ((c :: rest).drop pat.length)
    else
      c :: replaceChars pat rep fuel rest

/-- Python `s.replace(pat, rep)` on the strings the URL builder handles. -/
def pyReplace (s pat rep : String) : String :=
  ⟨replaceChars pat.toList rep.toList s.toList.length s.toList⟩

/-- Split of a character list at every occurrence of `sep`, keeping empty
pieces, as Python `s.split(sep)` does for a one-character separator. -/
def splitChars (sep : Char) : List Char → List (List Char)
  | [] => [[]]
  | c :: rest =>
    if c == sep then [] :: splitChars sep rest
    else
      match splitChars sep rest with
      | piece :: pieces => (c :: piece) :: pieces
      | [] => [[c]]

/-- Python `s.split(sep)` for the one-character separators the code uses. -/
def pySplit (s : String) (sep : Char) : List String :=
  (splitChars sep s.toList).map fun cs => ⟨cs⟩

/-- config.get_endpoint_url: an unknown endpoint name raises `ValueError`;
a known one has each supplied keyword's placeholder substituted and the
result prefixed with BASE_URL. Python checks membership of the placeholder
before calling `str.replace`; the check is redundant (replacing an absent
pattern is the identity) and is folded into `pyReplace` here. Placeholders
with no matching keyword are left in the path untouched. -/
def get_endpoint_url (endpoint_name : String) (kwargs : List (String × String)) :
    Except String String :=
  match ENDPOINTS.find? (fun p => p.1 == endpoint_name) with
  | none => .error ("Unknown endpoint: " ++ endpoint_name)
  | some p =>
    .ok (BASE_URL ++ kwargs.foldl
      (fun e kv => pyReplace e ("\x7b" ++ kv.1 ++ "\x7d") kv.2) p.2)

/-! ## The rate gate: AeroDataBoxClient._rate_limit of swagger_clients.py -/

/-- State of the sliding-window rate limiter: the recorded request
timestamps and the wall clock. -/
structure GateState where
  request_timestamps : List ℚ
  now : ℚ
deriving Repr

/-- rate_limit_window, set in AeroDataBoxClient.__init__ (60-second window). -/
def rate_limit_window : ℚ := 60

/-- max_requests_per_minute, set in AeroDataBoxClient.__init__. -/
def max_requests_per_minute : Nat := 30

/-- The fixed `time.sleep(0.1)` issued between requests at the end of
`_rate_limit`. -/
def inter_request_delay : ℚ := 1/10

/-- AeroDataBoxClient._rate_limit: prune timestamps older than the window,
sleep until the oldest pruned timestamp leaves the window when the pruned
list has reached the ceiling, then append `now` — the value of `time.time()`
read BEFORE the sleep, exactly as the Python local variable is reused — and
finally sleep the fixed inter-request delay. -/
def rate_limit (s : GateState) : GateState :=
  let now := s.now
  let pruned := s.request_timestamps.filter (fun ts => now - ts < rate_limit_window)
  let slept :=
    if max_requests_per_minute ≤ pruned.length then
      let sleep_time := rate_limit_window - (now - pruned.headD 0)
      if 0 < sleep_time then now + sleep_time else now
    else now
  { request_timestamps := pruned ++ [now], now := slept + inter_request_delay }

/-- N consecutive `_rate_limit` calls with no artificial delay between them:
the clock advances only by the sleeps inside the gate. -/
def rate_limitN : Nat → GateState → GateState
  | 0, s => s
  | n + 1, s => rate_limitN n (rate_limit s)

/-- A fresh client's gate: empty timestamp list, clock at `t0`. -/
def initGate (t0 : ℚ) : GateState :=
  { request_timestamps := [], now := t0 }

/-- How many recorded timestamps fall inside the 60-second window starting
at `lo`. -/
def windowCount (ts : List ℚ) (lo : ℚ) : Nat :=
  (ts.filter (fun t => lo ≤ t ∧ t < lo + rate_limit_window)).length

/-! ## TTL cache and retry loop: AeroDataBoxClient._make_request -/

/-- Insertion of a keyword pair into a key-sorted list, for
`json.dumps(params, sort_keys=True)` inside `_get_cache_key`. -/
def insertSorted (kv : String × String) :
    List (String × String) → List (String × String)
  | [] => [kv]
  | p :: ps => if kv.1 < p.1 then kv :: p :: ps else p :: insertSorted kv ps

/-- Keyword parameters in sorted key order, as `json.dumps` serialises them. -/
def sortByKey : List (String × String) → List (String × String)
  | [] => []
  | p :: ps => insertSorted p (sortByKey ps)

/-- The text `_get_cache_key` feeds to md5: the endpoint name together with
the sorted parameter list. md5 is modelled as injective, so the hashed text
itself serves as the cache key. -/
def cacheKey (endpoint_name : String) (kwargs : List (String × String)) :
    String × List (String × String) :=
  (endpoint_name, sortByKey kwargs)

abbrev CacheKey := String × List (String × String)

/-- One cache entry: the payload and the `time.time()` at which it was
stored. -/
structure CacheEntry where
  data : Json
  timestamp : ℚ
deriving Repr

/-- Python dict assignment `m[k] = v`: overwrite the binding when the key
is present, append it otherwise. -/
def dictSet {κ α : Type} [BEq κ] (m : List (κ × α)) (k : κ) (v : α) :
    List (κ × α) :=
  if m.any (fun p => p.1 == k) then
    m.map (fun p => if p.1 == k then (k, v) else p)
  else m ++ [(k, v)]

/-- Python dict lookup, `None` when the key is absent. -/
def dictFind {κ α : Type} [BEq κ] (m : List (κ × α)) (k : κ) : Option α :=
  (m.find? (fun p => p.1 == k)).map Prod.snd

/-- Lookup in the cache dict. -/
def cacheFind (cache : List (CacheKey × CacheEntry)) (k : CacheKey) :
    Option CacheEntry :=
  dictFind cache k

/-- Python dict assignment `self.cache[cache_key] = entry`. -/
def cacheInsert (cache : List (CacheKey × CacheEntry)) (k : CacheKey)
    (e : CacheEntry) : List (CacheKey × CacheEntry) :=
  dictSet cache k e

/-- Classified outcome of one `session.get` + `raise_for_status` +
`response.json()` round trip: HTTP 200 with a parseable JSON body, an HTTP
error status (`requests.exceptions.HTTPError`), a network or timeout
failure (`requests.exceptions.RequestException`), or a JSON decode
failure. -/
inductive HttpOutcome where
  | ok (data : Json)
  | httpError (status : Nat)
  | netError
  | parseError

/-- The remote API as the client sees it: the outcome of a GET against a
URL issued at a given time. Request and response share one instant; the
configured timeout only bounds how long that instant could take and plays
no further role. -/
abbrev Remote := String → ℚ → HttpOutcome

/-- Mutable state of one AeroDataBoxClient: its cache and rate-gate, the
wall clock included. -/
structure ClientState where
  cache : List (CacheKey × CacheEntry)
  gate : GateState
deriving Repr

/-- Python `time.sleep(d)` at the client level: the clock advances by `d`. -/
def sleep (s : ClientState) (d : ℚ) : ClientState :=
  { s with gate := { s.gate with now := s.gate.now + d } }

/-- The retry loop of `_make_request` (`for attempt in range(max_retries)`),
instrumented with the number of HTTP requests issued. `attempt` is the
Python loop index and `remaining` the iterations left, so `attempt +
remaining = max_retries` at entry. Control-flow notes, read off the
`except` blocks:
- HTTP 429 backs off `2 ** attempt` seconds and continues;
- HTTP 404 returns None at once;
- any other HTTP error only logs, so the `for` proceeds to the next
  attempt with no sleep — this covers 5xx, since `raise_for_status` raises
  `HTTPError` for those and that except-arm is checked first;
- a network/timeout error sleeps `retry_delay` before the next attempt,
  except when none remains;
- a JSON decode error logs and proceeds;
- exhausting the loop falls through to `return None`. -/
def attemptLoop (remote : Remote) (url : String) (key : CacheKey) :
    Nat → Nat → ClientState → Option Json × ClientState × Nat
  | _, 0, s => (none, s, 0)
  | attempt, remaining + 1, s =>
    let s1 : ClientState := { s with gate := rate_limit s.gate }
    let t := s1.gate.now
    match remote url t with
    | .ok data =>
      (some data, { s1 with cache := cacheInsert s1.cache key ⟨data, t⟩ }, 1)
    | .httpError status =>
      if status = 429 then
        let r := attemptLoop remote url key (attempt + 1) remaining
          (sleep s1 ((2 : ℚ) ^ attempt))
        (r.1, r.2.1, r.2.2 + 1)
      else if status = 404 then
        (none, s1, 1)
      else
        let r := attemptLoop remote url key (attempt + 1) remaining s1
        (r.1, r.2.1, r.2.2 + 1)
    | .netError =>
      let s2 := if attempt < DATA_LIMITS.max_retries - 1
        then sleep s1 DATA_LIMITS.retry_delay else s1
      let r := attemptLoop remote url key (attempt + 1) remaining s2
      (r.1, r.2.1, r.2.2 + 1)
    | .parseError =>
      let r := attemptLoop remote url key (attempt + 1) remaining s1
      (r.1, r.2.1, r.2.2 + 1)

/-- AeroDataBoxClient._make_request of swagger_clients.py. The cache is
consulted before the URL is even built, so a fresh hit returns without
touching the gate, the remote, or the cache itself; a stale entry falls
through to the retry loop. An unknown endpoint name propagates the
`ValueError` of `get_endpoint_url` (the `.error` case). The returned
number counts the HTTP requests issued. -/
def make_request (remote : Remote) (endpoint_name : String)
    (kwargs : List (String × String)) (s : ClientState) :
    Except String (Option Json × ClientState × Nat) :=
  let key := cacheKey endpoint_name kwargs
  let hit :=
    match cacheFind s.cache key with
    | some e =>
      if s.gate.now - e.timestamp < DATA_LIMITS.cache_duration_seconds
      then some e.data else none
    | none => none
  match hit with
  | some data => .ok (some data, s, 0)
  | none =>
    match get_endpoint_url endpoint_name kwargs with
    | .error msg => .error msg
    | .ok url => .ok (attemptLoop remote url key 0 DATA_LIMITS.max_retries s)

/-- A fresh AeroDataBoxClient as `__init__` builds it, with the wall clock
at `t0`. -/
def initClient (t0 : ℚ) : ClientState :=
  { cache := [], gate := initGate t0 }

/-! ## Batch fetch: AeroDataBoxClient.get_multiple_airports -/

/-- AeroDataBoxClient.get_multiple_airports: the codes are fanned out over
a worker pool and, as each future completes, `results[code] = data` runs
for EVERY code — a failed fetch stores `None` under its code instead of
leaving the code out. Completion order only permutes dict insertion order
and never the final mapping, so the fan-in is modelled in submission order,
with the per-code `get_airport_info` abstracted as `fetch`. -/
def get_multiple_airports (fetch : String → Option Json)
    (codes : List String) : List (String × Option Json) :=
  codes.foldl (fun m code => dictSet m code (fetch code)) []

/-- The airport-storing loop of SmartDataFetcher.fetch_dashboard_data:
`airport_count` increments only for codes whose payload is truthy, and the
summary reports it as `airports_fetched`. -/
def airport_count (airports_data : List (String × Option Json)) : Nat :=
  (airports_data.filter (fun p =>
    match p.2 with
    | some d => d.truthy
    | none => false)).length

/-! ## database.py: tables, uniqueness constraints, store methods

The `airport` table declares `iata_code TEXT UNIQUE` (and an autoincrement
`airport_id` the inserts never supply); `flights` declares
`flight_id TEXT PRIMARY KEY`; `airport_delays` declares ONLY
`delay_id INTEGER PRIMARY KEY AUTOINCREMENT` — no uniqueness constraint
mentions `(airport_iata, delay_date)`. `INSERT OR REPLACE` deletes the
rows that collide with the incoming row on one of the table's uniqueness
constraints, then inserts. Defaulted columns (`region`, `last_updated`)
play no part in any claim and are omitted from the rows. -/

/-- A row of `airport` as SmartDataFetcher._store_airport binds it: every
text column passes through Python `str`, the coordinates through `float`. -/
structure AirportRowF where
  icao_code : String
  iata_code : String
  name : String
  city : String
  country : String
  continent : String
  latitude : ℚ
  longitude : ℚ
  timezone : String
deriving Repr, DecidableEq

/-- INSERT OR REPLACE into `airport`: the unique column is `iata_code`. -/
def insertOrReplaceAirportF (t : List AirportRowF) (r : AirportRowF) :
    List AirportRowF :=
  t.filter (fun r0 => !(r0.iata_code == r.iata_code)) ++ [r]

/-- A row of `airport` as DataOrchestrator._store_airport binds it: the
parameters are passed to sqlite exactly as extracted, with no `str`/`float`
conversion, so the columns hold raw payload values. -/
structure AirportRowO where
  icao_code : Json
  iata_code : Json
  name : Json
  city : Json
  country : Json
  continent : Json
  latitude : Json
  longitude : Json
  timezone : Json
deriving Repr, BEq

/-- INSERT OR REPLACE into `airport` for the orchestrator's raw rows. -/
def insertOrReplaceAirportO (t : List AirportRowO) (r : AirportRowO) :
    List AirportRowO :=
  t.filter (fun r0 => !(r0.iata_code == r.iata_code)) ++ [r]

/-- A row of `flights` as SmartDataFetcher._store_flight binds it (the
fetcher's INSERT has no `direction` column; every column except the raw
`flight_number` passes through `str`). `flight_date` is sqlite
`DATE('now')`, supplied here as `today`. -/
structure FlightRowF where
  flight_id : String
  flight_number : Json
  aircraft_registration : String
  origin_iata : String
  destination_iata : String
  scheduled_departure : String
  actual_departure : String
  scheduled_arrival : String
  actual_arrival : String
  status : String
  airline_code : String
  airline_name : String
  flight_date : String
deriving Repr, BEq

/-- INSERT OR REPLACE into `flights`: the primary key is `flight_id`. -/
def insertOrReplaceFlightF (t : List FlightRowF) (r : FlightRowF) :
    List FlightRowF :=
  t.filter (fun r0 => !(r0.flight_id == r.flight_id)) ++ [r]

/-- A row of `flights` as DataOrchestrator._store_flight binds it: raw
payload values, plus the `direction` column its INSERT carries. -/
structure FlightRowO where
  flight_id : String
  flight_number : Json
  aircraft_registration : Json
  origin_iata : Json
  destination_iata : Json
  scheduled_departure : Json
  actual_departure : Json
  scheduled_arrival : Json
  actual_arrival : Json
  status : Json
  airline_code : Json
  airline_name : Json
  flight_date : String
  direction : String
deriving Repr, BEq

/-- INSERT OR REPLACE into `flights` for the orchestrator's rows. -/
def insertOrReplaceFlightO (t : List FlightRowO) (r : FlightRowO) :
    List FlightRowO :=
  t.filter (fun r0 => !(r0.flight_id == r.flight_id)) ++ [r]

/-- A row of `airport_delays`, with the autoincrement `delay_id` sqlite
assigns on insert. -/
structure DelayRow where
  delay_id : Nat
  airport_iata : String
  delay_date : String
  total_flights : Int
  delayed_flights : Int
  avg_delay_min : ℚ
  median_delay_min : ℚ
  canceled_flights : Int
deriving Repr, DecidableEq

/-- The `airport_delays` table with its autoincrement counter. -/
structure DelayTable where
  rows : List DelayRow
  next_id : Nat
deriving Repr, DecidableEq

/-- The empty `airport_delays` table; sqlite autoincrement ids start at 1. -/
def emptyDelayTable : DelayTable := { rows := [], next_id := 1 }

/-- INSERT OR REPLACE into `airport_delays`. The only uniqueness constraint
database.py declares for this table is the primary key `delay_id`, and the
INSERT of `_store_delays` supplies no `delay_id`, so sqlite assigns the
fresh autoincrement id; the new row can therefore never collide with an
existing one and the statement behaves as a plain INSERT — rows
accumulate. `mk` builds the row from the id sqlite assigns. -/
def insertOrReplaceDelay (t : DelayTable) (mk : Nat → DelayRow) : DelayTable :=
  let r := mk t.next_id
  { rows := t.rows.filter (fun r0 => !(r0.delay_id == r.delay_id)) ++ [r],
    next_id := t.next_id + 1 }

namespace SmartDataFetcher

/-- Parameter extraction of SmartDataFetcher._store_airport, inside the
method's try block. `icao_code` and `iata_code` fall back to the code the
caller passed whenever the payload value is falsy; the `name` default is
the f-string `Airport {code}`. -/
def store_airport_row (code : String) (data : Json) :
    Except String AirportRowF := do
  let icaoRaw ← data.get "icao"
  let icao_code := if icaoRaw.truthy then pyStr icaoRaw else code
  let iataRaw ← data.get "iata"
  let iata_code := if iataRaw.truthy then pyStr iataRaw else code
  let name := pyStr (← data.getD "name" (.str ("Airport " ++ code)))
  let city := pyStr (← data.getD "municipalityName" (.str ""))
  let country := pyStr (← (← data.getD "country" (.obj [])).getD "name" (.str ""))
  let continent := pyStr (← data.getD "continent" (.str ""))
  let location ← data.getD "location" (.obj [])
  let latitude ← pyFloat (← location.getD "lat" (.num 0))
  let longitude ← pyFloat (← location.getD "lon" (.num 0))
  let timezone := pyStr (← data.getD "timeZone" (.str ""))
  return { icao_code, iata_code, name, city, country, continent,
           latitude, longitude, timezone }

/-- SmartDataFetcher._store_airport: falsy payloads return False and write
nothing; an exception inside the try block is caught and returns False;
otherwise the row is upserted and the method returns True. -/
def store_airport (code : String) (data : Json) (t : List AirportRowF) :
    Bool × List AirportRowF :=
  if !data.truthy then (false, t)
  else
    match store_airport_row code data with
    | .ok r => (true, insertOrReplaceAirportF t r)
    | .error _ => (false, t)

/-- Parameter extraction of SmartDataFetcher._store_flight. `none` is the
early `return False` taken when the payload has no truthy flight number;
`stamp` is `datetime.now().strftime('%Y%m%d%H%M%S')`, the wall-clock
second at which the store runs, and `today` is sqlite `DATE('now')`. -/
def store_flight_row (today stamp : String) (flight_data : Json) :
    Except String (Option FlightRowF) := do
  let flight_number ← flight_data.get "number"
  if !flight_number.truthy then return none
  let airline ← flight_data.getD "airline" (.obj [])
  let departure ← flight_data.getD "departure" (.obj [])
  let arrival ← flight_data.getD "arrival" (.obj [])
  let flight_id := pyStr flight_number ++ "_" ++ stamp
  let aircraft_registration :=
    pyStr (← (← flight_data.getD "aircraft" (.obj [])).getD "reg" (.str ""))
  let origin_iata := pyStr (← (← departure.getD "airport" (.obj [])).getD "iata" (.str ""))
  let destination_iata := pyStr (← (← arrival.getD "airport" (.obj [])).getD "iata" (.str ""))
  let scheduled_departure :=
    pyStr (← (← departure.getD "scheduledTime" (.obj [])).getD "local" (.str ""))
  let actual_departure :=
    pyStr (← (← departure.getD "actualTime" (.obj [])).getD "local" (.str ""))
  let scheduled_arrival :=
    pyStr (← (← arrival.getD "scheduledTime" (.obj [])).getD "local" (.str ""))
  let actual_arrival :=
    pyStr (← (← arrival.getD "actualTime" (.obj [])).getD "local" (.str ""))
  let status := pyStr (← flight_data.getD "status" (.str "scheduled"))
  let airline_code := pyStr (← airline.getD "icao" (.str ""))
  let airline_name := pyStr (← airline.getD "name" (.str ""))
  return some { flight_id, flight_number, aircraft_registration, origin_iata,
                destination_iata, scheduled_departure, actual_departure,
                scheduled_arrival, actual_arrival, status, airline_code,
                airline_name, flight_date := today }

/-- SmartDataFetcher._store_flight: upsert keyed by the synthesised
`flight_id` and return True, or return False (payload without flight
number, or a caught exception) leaving the table unchanged. -/
def store_flight (today stamp : String) (flight_data : Json)
    (t : List FlightRowF) : Bool × List FlightRowF :=
  match store_flight_row today stamp flight_data with
  | .ok (some r) => (true, insertOrReplaceFlightF t r)
  | .ok none => (false, t)
  | .error _ => (false, t)

/-- Parameter extraction of SmartDataFetcher._store_delays: totals through
`int`, the two delay statistics through `float` guarded by
`is not None`. The function builds the row from the autoincrement id. -/
def store_delays_row (today : String) (airport_code : String) (data : Json) :
    Except String (Nat → DelayRow) := do
  let stats ← data.getD "statistics" (.obj [])
  let flights ← stats.getD "flights" (.obj [])
  let delays ← stats.getD "delays" (.obj [])
  let total_flights ← pyInt (← flights.getD "total" (.num 0))
  let delayed_flights ← pyInt (← flights.getD "delayed" (.num 0))
  let avg_delay_raw ← delays.get "averageMinutes"
  let avg_delay_min ← match avg_delay_raw with
    | .null => pure (0 : ℚ)
    | j => pyFloat j
  let median_delay_raw ← delays.get "medianMinutes"
  let median_delay_min ← match median_delay_raw with
    | .null => pure (0 : ℚ)
    | j => pyFloat j
  let canceled_flights ← pyInt (← flights.getD "canceled" (.num 0))
  return fun delay_id =>
    { delay_id, airport_iata := airport_code, delay_date := today,
      total_flights, delayed_flights, avg_delay_min, median_delay_min,
      canceled_flights }

/-- SmartDataFetcher._store_delays: falsy payloads return at once;
exceptions inside the try block are caught, leaving the table unchanged;
otherwise the INSERT OR REPLACE above runs. -/
def store_delays (today : String) (airport_code : String) (data : Json)
    (t : DelayTable) : DelayTable :=
  if !data.truthy then t
  else
    match store_delays_row today airport_code data with
    | .ok mk => insertOrReplaceDelay t mk
    | .error _ => t

end SmartDataFetcher

namespace DataOrchestrator

/-- Parameter extraction of DataOrchestrator._store_airport: raw payload
values with the caller's code as fallback for both code columns, no type
conversion. -/
def store_airport_row (code : String) (data : Json) :
    Except String AirportRowO := do
  let icao_code ← data.getD "icao" (.str code)
  let iata_code ← data.getD "iata" (.str code)
  let name ← data.getD "name" (.str "")
  let city ← data.getD "municipalityName" (.str "")
  let country ← (← data.getD "country" (.obj [])).getD "name" (.str "")
  let continent ← data.getD "continent" (.str "")
  let latitude ← (← data.getD "location" (.obj [])).getD "lat" (.num 0)
  let longitude ← (← data.getD "location" (.obj [])).getD "lon" (.num 0)
  let timezone ← data.getD "timeZone" (.str "")
  return { icao_code, iata_code, name, city, country, continent,
           latitude, longitude, timezone }

/-- DataOrchestrator._store_airport: upsert the raw row; a caught exception
leaves the table unchanged (the method logs and returns nothing either
way). -/
def store_airport (code : String) (data : Json) (t : List AirportRowO) :
    List AirportRowO :=
  match store_airport_row code data with
  | .ok r => insertOrReplaceAirportO t r
  | .error _ => t

/-- Parameter extraction of DataOrchestrator._store_flight: `none` for the
early return on a missing/falsy flight number; `stamp` is
`datetime.now().strftime('%Y%m%d%H%M%S')` at the moment of the store. -/
def store_flight_row (today stamp : String) (flight_data : Json)
    (direction : String) : Except String (Option FlightRowO) := do
  let flight_number ← flight_data.get "number"
  if !flight_number.truthy then return none
  let flight_id := pyStr flight_number ++ "_" ++ stamp
  let airline ← flight_data.getD "airline" (.obj [])
  let departure ← flight_data.getD "departure" (.obj [])
  let arrival ← flight_data.getD "arrival" (.obj [])
  let aircraft_registration ← (← flight_data.getD "aircraft" (.obj [])).getD "reg" (.str "")
  let origin_iata ← (← departure.getD "airport" (.obj [])).getD "iata" (.str "")
  let destination_iata ← (← arrival.getD "airport" (.obj [])).getD "iata" (.str "")
  let scheduled_departure ← (← departure.getD "scheduledTime" (.obj [])).getD "local" (.str "")
  let actual_departure ← (← departure.getD "actualTime" (.obj [])).getD "local" (.str "")
  let scheduled_arrival ← (← arrival.getD "scheduledTime" (.obj [])).getD "local" (.str "")
  let actual_arrival ← (← arrival.getD "actualTime" (.obj [])).getD "local" (.str "")
  let status ← flight_data.getD "status" (.str "scheduled")
  let airline_code ← airline.getD "icao" (.str "")
  let airline_name ← airline.getD "name" (.str "")
  return some { flight_id, flight_number, aircraft_registration, origin_iata,
                destination_iata, scheduled_departure, actual_departure,
                scheduled_arrival, actual_arrival, status, airline_code,
                airline_name, flight_date := today, direction }

/-- DataOrchestrator._store_flight: upsert keyed by the synthesised
`flight_id`; a missing flight number or a caught exception leaves the
table unchanged. -/
def store_flight (today stamp : String) (flight_data : Json)
    (direction : String) (t : List FlightRowO) : List FlightRowO :=
  match store_flight_row today stamp flight_data direction with
  | .ok (some r) => insertOrReplaceFlightO t r
  | .ok none => t
  | .error _ => t

/-- The flight-storing loop of DataOrchestrator._process_and_store_all:
for every schedule entry whose value is truthy and has a 'data' key, split
the key into code and direction, and for each of the first
`max_flights_per_airport` flights run `_store_flight` and THEN increment
`flights_stored` — the increment is unconditional and does not depend on
whether the store wrote a row. `stamp i` is the formatted wall-clock
second at which the i-th store of the stage runs (each `_store_flight`
reads `datetime.now()` afresh). The loop itself runs outside any
try/except, so a key that does not split into exactly two parts or a
'data' value that is not a list would propagate (the `.error` case);
`_store_flight` catches its own exceptions. Returns the flights table and
the final `flights_stored` counter. -/
def process_flights_stage (today : String) (stamp : Nat → String)
    (schedules_data : List (String × Json)) (t0 : List FlightRowO) :
    Except String (List FlightRowO × Nat) :=
  schedules_data.foldlM (fun acc kv =>
    if kv.2.truthy && kv.2.hasKey "data" then
      match pySplit kv.1 '_' with
      | [_code, direction] => do
        let flights ← (← kv.2.item "data").elems
        return (flights.take DATA_LIMITS.max_flights_per_airport).foldl
          (fun acc2 flight =>
            (store_flight today (stamp acc2.2) flight direction acc2.1,
             acc2.2 + 1)) acc
      | _ => .error "ValueError: unpack"
    else pure acc) (t0, 0)

end DataOrchestrator

/-! ## Concrete payloads used by the claims -/

/-- A departure-board flight record as the schedules endpoint returns it,
cut down to its natural key. -/
def sampleFlight : Json := .obj [("number", .str "6E2001")]

/-- A delay-statistics payload of the shape `_store_delays` reads. -/
def sampleDelays : Json :=
  .obj [("statistics", .obj [
    ("flights", .obj [("total", .num 100), ("delayed", .num 20),
                      ("canceled", .num 2)]),
    ("delays", .obj [("averageMinutes", .num 15),
                     ("medianMinutes", .num 9)])])]

/-- The minimal airport payload of the normalizer-tolerance property. -/
def minimalAirport : Json := .obj [("iata", .str "DEL")]

/-- An airport payload for DEL as far as C3 needs it. -/
def delPayload : Json := .obj [("iata", .str "DEL"), ("name", .str "Indira Gandhi")]

/-- An airport payload for BOM as far as C3 needs it. -/
def bomPayload : Json := .obj [("iata", .str "BOM"), ("name", .str "Chhatrapati Shivaji")]

/-- The per-code fetch of the C3 scenario: DEL and BOM succeed, the unknown
code XXX gets HTTP 404, which `get_airport_info` surfaces as `None`. -/
def c3Fetch : String → Option Json := fun code =>
  if code == "DEL" then some delPayload
  else if code == "BOM" then some bomPayload
  else none

/-- The one-schedule input of the C7 scenario: the DEL departure board
holds one flight without a number (its store writes nothing) followed by
one well-formed flight. -/
def c7Schedules : List (String × Json) :=
  [("DEL_departures", .obj [("data", .arr [.obj [], sampleFlight])])]

/-! ## Theorems -/

/-- C1. Storing the same flight payload twice does NOT overwrite: the
flights primary key is the synthesised `flight_id = f"{number}_{now:%Y%m%d%H%M%S}"`,
so a re-fetch of the same flight one second later inserts under a fresh
key and the table holds two rows for the one real-world flight. This
evaluates SmartDataFetcher._store_flight at the failing input of the
claim. -/
theorem c1_reingest_duplicates_flight_rows :
    ((SmartDataFetcher.store_flight "2025-10-12" "20251012120000" sampleFlight []).2).map
        FlightRowF.flight_id = ["6E2001_20251012120000"] ∧
    ((SmartDataFetcher.store_flight "2025-10-12" "20251012120001" sampleFlight
        (SmartDataFetcher.store_flight "2025-10-12" "20251012120000" sampleFlight []).2).2).map
        FlightRowF.flight_id =
      ["6E2001_20251012120000", "6E2001_20251012120001"] ∧
    ((SmartDataFetcher.store_flight "2025-10-12" "20251012120001" sampleFlight
        (SmartDataFetcher.store_flight "2025-10-12" "20251012120000" sampleFlight []).2).2).map
        (fun r => r.flight_number) = [.str "6E2001", .str "6E2001"] :=
  ⟨rfl, rfl, rfl⟩

/-- C2. Storing delay statistics twice for the same airport on the same day
leaves TWO rows keyed (DEL, 2025-10-12), not one: `airport_delays` has no
uniqueness constraint on `(airport_iata, delay_date)`, so the
`INSERT OR REPLACE` of `_store_delays` degenerates to a plain insert under
a fresh autoincrement id. This evaluates the code at the failing input. -/
theorem c2_store_delays_accumulates_rows :
    (SmartDataFetcher.store_delays "2025-10-12" "DEL" sampleDelays
        (SmartDataFetcher.store_delays "2025-10-12" "DEL" sampleDelays
          emptyDelayTable)).rows.map
      (fun r => (r.airport_iata, r.delay_date)) =
    [("DEL", "2025-10-12"), ("DEL", "2025-10-12")] :=
  rfl

/-- C3, counterexample. With DEL and BOM succeeding and XXX returning 404,
`get_multiple_airports` yields a THREE-entry map in which XXX is present
and bound to `None` — not the two-entry map for DEL and BOM only that the
claim states. -/
theorem c3_failed_code_still_keyed :
    get_multiple_airports c3Fetch ["DEL", "BOM", "XXX"] =
      [("DEL", some delPayload), ("BOM", some bomPayload), ("XXX", none)] ∧
    (get_multiple_airports c3Fetch ["DEL", "BOM", "XXX"]).length = 3 :=
  ⟨rfl, rfl⟩

/-- Overwriting insertion finds the new value under its key. -/
lemma dictFind_dictSet_self {κ α : Type} [BEq κ] [LawfulBEq κ]
    (m : List (κ × α)) (k : κ)
    (v : α) : dictFind (dictSet m k v) k = some v := by
  unfold dictFind dictSet
  by_cases h : m.any (fun p => p.1 == k)
  · rw [if_pos h]
    induction m with
    | nil => simp at h
    | cons q qs ih =>
      rw [List.map_cons]
      by_cases hq : (q.1 == k) = true
      · rw [if_pos hq]
        simp [List.find?_cons]
      · rw [if_neg hq]
        have hqf : (q.1 == k) = false := by simpa using hq
        simp only [List.find?_cons, hqf]
        have h2 : qs.any (fun p => p.1 == k) = true := by
          rcases List.any_eq_true.mp h with ⟨x, hx, hpx⟩
          rcases List.mem_cons.mp hx with rfl | hx2
          · exact absurd hpx hq
          · exact List.any_eq_true.mpr ⟨x, hx2, hpx⟩
        exact ih h2
  · rw [if_neg h]
    induction m with
    | nil => simp [List.find?_cons]
    | cons q qs ih =>
      have hq : (q.1 == k) = false := by
        by_cases hcon : (q.1 == k) = true
        · exact absurd (by simp [List.any_cons, hcon]) h
        · simpa using hcon
      have hqs : ¬ (qs.any (fun p => p.1 == k) = true) :=
        fun hcon => h (by simp [List.any_cons, hcon])
      rw [List.cons_append]
      simp only [List.find?_cons, hq]
      exact ih hqs

/-- Insertion under one key leaves lookups of a different key unchanged. -/
lemma dictFind_dictSet_other {κ α : Type} [BEq κ] [LawfulBEq κ]
    (m : List (κ × α)) (k k0 : κ)
    (v : α) (hne : k0 ≠ k) : dictFind (dictSet m k v) k0 = dictFind m k0 := by
  have hk : (k == k0) = false :=
    beq_eq_false_iff_ne.mpr (fun hcon => hne hcon.symm)
  unfold dictFind dictSet
  by_cases h : m.any (fun p => p.1 == k)
  · rw [if_pos h]
    clear h
    induction m with
    | nil => rfl
    | cons q qs ih =>
      rw [List.map_cons]
      by_cases hq : (q.1 == k) = true
      · have hq0 : (q.1 == k0) = false := by
          have hqk : q.1 = k := by simpa using hq
          rw [hqk]
          exact hk
        rw [if_pos hq]
        simp only [List.find?_cons, hq0, hk]
        exact ih
      · rw [if_neg hq]
        by_cases hq0 : (q.1 == k0) = true
        · simp [List.find?_cons, hq0]
        · have hq0f : (q.1 == k0) = false := by simpa using hq0
          simp only [List.find?_cons, hq0f]
          exact ih
  · rw [if_neg h]
    induction m with
    | nil => simp [List.find?_cons, hk]
    | cons q qs ih =>
      have hqs : ¬ (qs.any (fun p => p.1 == k) = true) :=
        fun hcon => h (by simp [List.any_cons, hcon])
      rw [List.cons_append]
      by_cases hq0 : (q.1 == k0) = true
      · simp [List.find?_cons, hq0]
      · have hq0f : (q.1 == k0) = false := by simpa using hq0
        simp only [List.find?_cons, hq0f]
        exact ih hqs

/-- The fan-in fold of `get_multiple_airports` binds every processed code
to the value its fetch returned. -/
lemma dictFind_fold (fetch : String → Option Json) :
    ∀ (codes : List String) (m : List (String × Option Json)) (c : String),
      (c ∈ codes ∨ dictFind m c = some (fetch c)) →
      dictFind (codes.foldl (fun m code => dictSet m code (fetch code)) m) c =
        some (fetch c) := by
  intro codes
  induction codes with
  | nil =>
    intro m c h
    rcases h with h | h
    · simp at h
    · simpa using h
  | cons code rest ih =>
    intro m c h
    simp only [List.foldl_cons]
    apply ih
    by_cases hc : c = code
    · subst hc
      exact Or.inr (dictFind_dictSet_self m c (fetch c))
    · rcases h with h | h
      · rcases List.mem_cons.mp h with h1 | h2
        · exact absurd h1 hc
        · exact Or.inl h2
      · exact Or.inr (by rw [dictFind_dictSet_other m code c (fetch code) hc]; exact h)

/-- C3, amended. The batch map holds one entry for EVERY identifier —
failed fetches included, bound to `None` — and the dashboard summary's
`airports_fetched` counts only the identifiers whose fetch produced a
(truthy) payload, hence 2 for the DEL/BOM/XXX scenario. -/
theorem c3_batch_keeps_every_identifier :
    (∀ (fetch : String → Option Json) (codes : List String) (c : String),
        c ∈ codes →
        dictFind (get_multiple_airports fetch codes) c = some (fetch c)) ∧
    airport_count (get_multiple_airports c3Fetch ["DEL", "BOM", "XXX"]) = 2 := by
  constructor
  · intro fetch codes c hc
    exact dictFind_fold fetch codes [] c (Or.inl hc)
  · rfl

/-- C3, witness: the theorem applied to the DEL/BOM/XXX run at the failed
identifier XXX — present in the map, bound to None. -/
theorem c3_witness :
    dictFind (get_multiple_airports c3Fetch ["DEL", "BOM", "XXX"]) "XXX" =
      some none := by
  have h := c3_batch_keeps_every_identifier.1 c3Fetch ["DEL", "BOM", "XXX"]
    "XXX" (by decide)
  exact h

/-- C7. The orchestrator's `flights_stored` counter increments even for a
record whose store fails: on a board holding a flight without its natural
key followed by a well-formed one, the stage stores ONE row yet reports
`flights_stored = 2` — the counter moves for the rejected record, though
the batch does continue to the remaining record. This evaluates
`_process_and_store_all`'s flight loop at the failing input. -/
theorem c7_counter_increments_without_store :
    (DataOrchestrator.process_flights_stage "2025-10-12"
        (fun i => toString i) c7Schedules []).map
      (fun r => (r.1.map FlightRowO.flight_id, r.2)) =
    .ok (["6E2001_1"], 2) :=
  rfl

set_option maxRecDepth 20000 in
/-- C5, counterexample. After 31 back-to-back `_rate_limit` calls on a
fresh client, the recorded list holds 31 timestamps that all fall inside
the single 60-second window starting at the first call: the gated 31st
call sleeps until the oldest timestamp leaves the window but then appends
the clock value read BEFORE the sleep, so the stale timestamp lands among
the thirty fresh ones. The claimed bound of 30 is exceeded. -/
theorem c5_thirtyone_in_one_window :
    windowCount (rate_limitN 31 (initGate 0)).request_timestamps 0 = 31 := by
  norm_num [rate_limitN, rate_limit, windowCount, initGate, rate_limit_window,
    max_requests_per_minute, inter_request_delay, List.filter]

/-- The gate invariant behind the amended window bound: timestamps never
exceed the clock, the trailing window as `_rate_limit` itself prunes it
holds at most 30 entries, and the whole recorded list never exceeds 31. -/
def GateInv (s : GateState) : Prop :=
  (∀ t ∈ s.request_timestamps, t ≤ s.now) ∧
  (s.request_timestamps.filter
      (fun ts => s.now - ts < rate_limit_window)).length ≤ 30 ∧
  s.request_timestamps.length ≤ 31

lemma gateInv_init (t0 : ℚ) : GateInv (initGate t0) := by
  refine ⟨?_, ?_, ?_⟩ <;> simp [initGate]

/-- The let-bindings of `rate_limit` written out, for rewriting. -/
lemma rate_limit_def (s : GateState) :
    rate_limit s =
      { request_timestamps :=
          (s.request_timestamps.filter
            (fun ts => s.now - ts < rate_limit_window)) ++ [s.now],
        now :=
          (if max_requests_per_minute ≤
              (s.request_timestamps.filter
                (fun ts => s.now - ts < rate_limit_window)).length then
            (if 0 < rate_limit_window - (s.now -
                (s.request_timestamps.filter
                  (fun ts => s.now - ts < rate_limit_window)).headD 0) then
              s.now + (rate_limit_window - (s.now -
                (s.request_timestamps.filter
                  (fun ts => s.now - ts < rate_limit_window)).headD 0))
            else s.now)
          else s.now) + inter_request_delay } := rfl

/-- Building the invariant from its three plain parts, with the state's
projections already reduced. -/
lemma gateInv_mk (ts : List ℚ) (c : ℚ)
    (h1 : ∀ t ∈ ts, t ≤ c)
    (h2 : (ts.filter (fun x => c - x < rate_limit_window)).length ≤ 30)
    (h3 : ts.length ≤ 31) :
    GateInv { request_timestamps := ts, now := c } :=
  ⟨h1, h2, h3⟩

lemma gateInv_rate_limit {s : GateState} (h : GateInv s) :
    GateInv (rate_limit s) := by
  obtain ⟨hle, hfilt, _⟩ := h
  have hdelay : (0 : ℚ) < inter_request_delay := by norm_num [inter_request_delay]
  rw [rate_limit_def]
  set pruned := s.request_timestamps.filter
    (fun ts => s.now - ts < rate_limit_window) with hpruned
  have hmem_le : ∀ t ∈ pruned, t ≤ s.now := by
    intro t ht
    exact hle t (List.mem_filter.mp (hpruned ▸ ht)).1
  by_cases hgate : max_requests_per_minute ≤ pruned.length
  · -- the gated branch: pruned holds exactly 30 entries and the clock
    -- jumps to the instant the oldest of them leaves the window
    have h30 : pruned.length = 30 := le_antisymm hfilt hgate
    obtain ⟨h0, tl, hcons⟩ : ∃ h0 tl, pruned = h0 :: tl := by
      cases hp : pruned with
      | nil => rw [hp] at h30; simp at h30
      | cons a l => exact ⟨a, l, rfl⟩
    have hh0mem : h0 ∈ pruned := by rw [hcons]; exact List.mem_cons_self h0 tl
    have hh0win : s.now - h0 < rate_limit_window := by
      have := (List.mem_filter.mp (hpruned ▸ hh0mem)).2
      simpa using this
    have hhead : pruned.headD 0 = h0 := by rw [hcons]; rfl
    have hsleep : 0 < rate_limit_window - (s.now - pruned.headD 0) := by
      rw [hhead]; linarith
    rw [if_pos hgate, if_pos hsleep, hhead]
    apply gateInv_mk
    · intro t ht
      rcases List.mem_append.mp ht with htp | htn
      · have h1 : t ≤ s.now := hmem_le t htp
        linarith
      · have : t = s.now := by simpa using htn
        subst this
        linarith
    · have hcfalse :
          (decide (s.now + (rate_limit_window - (s.now - h0)) +
            inter_request_delay - h0 < rate_limit_window)) = false := by
        simp only [decide_eq_false_iff_not, not_lt]
        linarith
      rw [hcons, List.cons_append, List.filter_cons, hcfalse]
      simp only [Bool.false_eq_true, if_false]
      have htl : tl.length = 29 := by
        have := h30
        rw [hcons] at this
        simpa using this
      calc ((tl ++ [s.now]).filter _).length
          ≤ (tl ++ [s.now]).length := List.length_filter_le _ _
        _ = 30 := by simp [htl]
    · have : (pruned ++ [s.now]).length = 31 := by
        simp [h30]
      omega
  · -- the ungated branch: at most 29 survive the prune, so the appended
    -- timestamp keeps the list at 30 or fewer
    rw [if_neg hgate]
    have h29 : pruned.length ≤ 29 := by
      have := Nat.lt_of_not_le hgate
      unfold max_requests_per_minute at this
      omega
    apply gateInv_mk
    · intro t ht
      rcases List.mem_append.mp ht with htp | htn
      · have h1 : t ≤ s.now := hmem_le t htp
        linarith
      · have : t = s.now := by simpa using htn
        subst this
        linarith
    · calc ((pruned ++ [s.now]).filter _).length
          ≤ (pruned ++ [s.now]).length := List.length_filter_le _ _
        _ = pruned.length + 1 := by simp
        _ ≤ 30 := by omega
    · have : (pruned ++ [s.now]).length = pruned.length + 1 := by simp
      omega

lemma gateInv_rate_limitN : ∀ (n : Nat) (s : GateState), GateInv s →
    GateInv (rate_limitN n s)
  | 0, _, h => h
  | n + 1, s, h => gateInv_rate_limitN n (rate_limit s) (gateInv_rate_limit h)

/-- C5, amended. For any number of consecutive `_rate_limit` calls on a
fresh client, every 60-second window holds at most 31 recorded timestamps:
the claimed ceiling of 30 can be exceeded by exactly one, transiently,
because a gated call appends the clock value read before its sleep. -/
theorem c5_window_bound_31 (n : Nat) (t0 lo : ℚ) :
    windowCount (rate_limitN n (initGate t0)).request_timestamps lo ≤ 31 := by
  have h := gateInv_rate_limitN n (initGate t0) (gateInv_init t0)
  exact le_trans (List.length_filter_le _ _) h.2.2

/-- A payload returned by the retry loop was cached at the instant the
loop returned: the only `some`-returning exit is the success branch, which
stores the payload under the request's key stamped with the then-current
clock and returns at once. -/
lemma attemptLoop_success_caches (remote : Remote) (url : String)
    (key : CacheKey) :
    ∀ (remaining attempt : Nat) (s : ClientState) (d : Json)
      (s1 : ClientState) (n : Nat),
      attemptLoop remote url key attempt remaining s = (some d, s1, n) →
      cacheFind s1.cache key = some ⟨d, s1.gate.now⟩
  | 0, attempt, s, d, s1, n, h => by
    simp [attemptLoop] at h
  | remaining + 1, attempt, s, d, s1, n, h => by
    simp only [attemptLoop] at h
    rcases hout : remote url ({ s with gate := rate_limit s.gate } : ClientState).gate.now
      with d2 | status | _ | _ <;> rw [hout] at h <;> dsimp only at h
    · -- success: the entry is written and returned with the same clock
      simp only [Prod.mk.injEq, Option.some.injEq] at h
      obtain ⟨rfl, h2, _⟩ := h
      rw [← h2]
      exact dictFind_dictSet_self ..
    · -- an HTTP error: 404 cannot produce a payload, 429 and the rest recurse
      by_cases h429 : status = 429
      · rw [if_pos h429] at h
        rcases hr : attemptLoop remote url key (attempt + 1) remaining
          (sleep { s with gate := rate_limit s.gate } ((2 : ℚ) ^ attempt))
          with ⟨r1, r2, r3⟩
        simp only [hr, Prod.mk.injEq] at h
        exact attemptLoop_success_caches remote url key remaining (attempt + 1)
          _ d s1 r3 (hr.trans (by rw [h.1, h.2.1]))
      · rw [if_neg h429] at h
        by_cases h404 : status = 404
        · rw [if_pos h404] at h
          simp at h
        · rw [if_neg h404] at h
          rcases hr : attemptLoop remote url key (attempt + 1) remaining
            { s with gate := rate_limit s.gate } with ⟨r1, r2, r3⟩
          simp only [hr, Prod.mk.injEq] at h
          exact attemptLoop_success_caches remote url key remaining (attempt + 1)
            _ d s1 r3 (hr.trans (by rw [h.1, h.2.1]))
    · -- a network error recurses, with or without the retry sleep
      rcases hr : attemptLoop remote url key (attempt + 1) remaining
        (if attempt < DATA_LIMITS.max_retries - 1
          then sleep { s with gate := rate_limit s.gate } DATA_LIMITS.retry_delay
          else { s with gate := rate_limit s.gate }) with ⟨r1, r2, r3⟩
      simp only [hr, Prod.mk.injEq] at h
      exact attemptLoop_success_caches remote url key remaining (attempt + 1)
        _ d s1 r3 (hr.trans (by rw [h.1, h.2.1]))
    · -- a JSON decode error recurses
      rcases hr : attemptLoop remote url key (attempt + 1) remaining
        { s with gate := rate_limit s.gate } with ⟨r1, r2, r3⟩
      simp only [hr, Prod.mk.injEq] at h
      exact attemptLoop_success_caches remote url key remaining (attempt + 1)
        _ d s1 r3 (hr.trans (by rw [h.1, h.2.1]))

/-- C4. A cache hit bypasses the rate gate: when a first `_make_request`
returns a payload through at least one actual HTTP request (`1 ≤ n1`, so
the payload was freshly fetched and cached), a second `_make_request` for
the identical endpoint and parameters issued `d` seconds later with
`d` inside the TTL returns the cached payload, issues no HTTP request
(the count is 0, whatever the remote would answer), and leaves the client
state — the recorded timestamp list included — exactly as it found it. -/
theorem c4_cache_hit_bypasses_gate (remote1 remote2 : Remote)
    (endpoint_name : String) (kwargs : List (String × String))
    (s0 : ClientState) (d : Json) (s1 : ClientState) (n1 : Nat) (del : ℚ)
    (h1 : make_request remote1 endpoint_name kwargs s0 = .ok (some d, s1, n1))
    (hfresh : 1 ≤ n1) (hd0 : 0 ≤ del)
    (hdTTL : del < DATA_LIMITS.cache_duration_seconds) :
    make_request remote2 endpoint_name kwargs (sleep s1 del) =
      .ok (some d, sleep s1 del, 0) := by
  have hcached : cacheFind s1.cache (cacheKey endpoint_name kwargs) =
      some ⟨d, s1.gate.now⟩ := by
    simp only [make_request] at h1
    rcases hfind : cacheFind s0.cache (cacheKey endpoint_name kwargs) with _ | e
    · rw [hfind] at h1
      dsimp only at h1
      rcases hurl : get_endpoint_url endpoint_name kwargs with msg | url
      · rw [hurl] at h1
        dsimp only at h1
        exact absurd h1 (by simp)
      · rw [hurl] at h1
        dsimp only at h1
        simp only [Except.ok.injEq] at h1
        exact attemptLoop_success_caches remote1 url
          (cacheKey endpoint_name kwargs) DATA_LIMITS.max_retries 0 s0 d s1 n1 h1
    · rw [hfind] at h1
      dsimp only at h1
      by_cases hfreshhit :
          s0.gate.now - e.timestamp < DATA_LIMITS.cache_duration_seconds
      · rw [if_pos hfreshhit] at h1
        dsimp only at h1
        simp only [Except.ok.injEq, Prod.mk.injEq] at h1
        omega
      · rw [if_neg hfreshhit] at h1
        dsimp only at h1
        rcases hurl : get_endpoint_url endpoint_name kwargs with msg | url
        · rw [hurl] at h1
          dsimp only at h1
          exact absurd h1 (by simp)
        · rw [hurl] at h1
          dsimp only at h1
          simp only [Except.ok.injEq] at h1
          exact attemptLoop_success_caches remote1 url
            (cacheKey endpoint_name kwargs) DATA_LIMITS.max_retries 0 s0 d s1 n1 h1
  simp only [make_request]
  have hc2 : cacheFind (sleep s1 del).cache (cacheKey endpoint_name kwargs) =
      some ⟨d, s1.gate.now⟩ := hcached
  rw [hc2]
  dsimp only
  have hwithin : (sleep s1 del).gate.now - (⟨d, s1.gate.now⟩ : CacheEntry).timestamp <
      DATA_LIMITS.cache_duration_seconds := by
    show s1.gate.now + del - s1.gate.now < DATA_LIMITS.cache_duration_seconds
    linarith
  rw [if_pos hwithin]

/-- The payload of the C4 witness scenario. -/
def c4Payload : Json := .obj [("iata", .str "DEL")]

/-- The client state after one fresh successful AIRPORT_TIME request from a
fresh client started at clock 0: one gate timestamp, one cache entry
stamped at the completion clock. -/
def c4State : ClientState :=
  { cache := [(cacheKey "AIRPORT_TIME" [("code", "DEL")], ⟨c4Payload, 1/10⟩)],
    gate := { request_timestamps := [0], now := 1/10 } }

/-- C4, witness: a fresh client fetches AIRPORT_TIME successfully (one HTTP
request), and a second identical call 100 seconds later — against a remote
that would now yield 404 — returns the cached payload with zero HTTP
requests and the state untouched. -/
theorem c4_witness :
    make_request (fun _ _ => .httpError 404) "AIRPORT_TIME" [("code", "DEL")]
      (sleep c4State 100) = .ok (some c4Payload, sleep c4State 100, 0) :=
  c4_cache_hit_bypasses_gate (fun _ _ => .ok c4Payload) (fun _ _ => .httpError 404)
    "AIRPORT_TIME" [("code", "DEL")] (initClient 0) c4Payload c4State 1 100
    (by
      have hfind : ENDPOINTS.find? (fun p => p.1 == "AIRPORT_TIME") =
          some ("AIRPORT_TIME", "/airports/\x7bcode\x7d/time/local") := rfl
      simp only [make_request, cacheFind, dictFind, initClient, initGate,
        List.find?_nil, Option.map_none', get_endpoint_url, cacheKey, sortByKey,
        insertSorted, hfind]
      norm_num [attemptLoop, rate_limit_def, sleep, inter_request_delay,
        rate_limit_window, max_requests_per_minute, DATA_LIMITS.max_retries,
        c4State, c4Payload, cacheInsert, dictSet, cacheKey, sortByKey,
        insertSorted, List.filter])
    (by norm_num) (by norm_num) (by norm_num [DATA_LIMITS.cache_duration_seconds])

/-- C6. Persistent throttling terminates after the configured attempts:
against a remote that answers HTTP 429 at every instant, `_make_request`
on any known endpoint issues exactly `max_retries = 3` HTTP requests,
sleeping `2 ** attempt` seconds after each (1, then 2, then 4, the
inter-request delay aside), then stops and returns None. The final clock
shows the three backoffs summed; nothing was cached. -/
theorem c6_throttled_terminates (endpoint_name : String)
    (kwargs : List (String × String))
    (hknown : (ENDPOINTS.find? (fun p => p.1 == endpoint_name)).isSome = true) :
    make_request (fun _ _ => .httpError 429) endpoint_name kwargs
        (initClient 0) =
      .ok (none,
        { cache := [],
          gate := { request_timestamps := [0, 11/10, 16/5], now := 73/10 } },
        DATA_LIMITS.max_retries) ∧
    (73 : ℚ)/10 =
      3 * inter_request_delay + ((2 : ℚ) ^ 0 + (2 : ℚ) ^ 1 + (2 : ℚ) ^ 2) := by
  obtain ⟨p, hp⟩ := Option.isSome_iff_exists.mp hknown
  constructor
  · simp only [make_request, cacheFind, dictFind, initClient, initGate,
      List.find?_nil, Option.map_none', get_endpoint_url, hp]
    norm_num [attemptLoop, rate_limit_def, sleep, inter_request_delay,
      rate_limit_window, max_requests_per_minute, DATA_LIMITS.max_retries,
      List.filter]
  · norm_num [inter_request_delay]

/-- C6, witness: the theorem applied to AIRPORT_INFO for DEL. -/
theorem c6_witness :
    make_request (fun _ _ => .httpError 429) "AIRPORT_INFO" [("code", "DEL")]
        (initClient 0) =
      .ok (none,
        { cache := [],
          gate := { request_timestamps := [0, 11/10, 16/5], now := 73/10 } },
        DATA_LIMITS.max_retries) :=
  (c6_throttled_terminates "AIRPORT_INFO" [("code", "DEL")] rfl).1

/-- C8, counterexample. Against a remote whose every answer is a network
error, `_make_request` issues THREE HTTP attempts — the first call plus
two retries — before giving up, not the single retry the claim states. -/
theorem c8_net_error_three_attempts :
    (make_request (fun _ _ => .netError) "AIRPORT_INFO" [("code", "DEL")]
        (initClient 0)).map (fun r => (r.1, r.2.2)) = .ok (none, 3) ∧
    (3 : Nat) ≠ 2 := by
  constructor
  · have hfind : ENDPOINTS.find? (fun p => p.1 == "AIRPORT_INFO") =
        some ("AIRPORT_INFO", "/airports/\x7bcode\x7d") := rfl
    simp only [make_request, cacheFind, dictFind, initClient, initGate,
      List.find?_nil, Option.map_none', get_endpoint_url, hfind]
    norm_num [attemptLoop, rate_limit_def, sleep, inter_request_delay,
      rate_limit_window, max_requests_per_minute, DATA_LIMITS.max_retries,
      DATA_LIMITS.retry_delay, List.filter, Except.map]
  · decide

/-- C8, amended. A request whose attempts all fail with a network/timeout
error is retried `max_retries - 1 = 2` times, each retry preceded by the
fixed `retry_delay` of 1 second (no delay follows the final attempt), and
then surfaces as None after 3 HTTP attempts in all; when every attempt
fails with HTTP 5xx the same three attempts happen but with no delay
between them, as the except-arm for other HTTP errors only logs. The
final clocks show exactly these sleeps. -/
theorem c8_retries_twice_then_gives_up (endpoint_name : String)
    (kwargs : List (String × String))
    (hknown : (ENDPOINTS.find? (fun p => p.1 == endpoint_name)).isSome = true) :
    make_request (fun _ _ => .netError) endpoint_name kwargs (initClient 0) =
      .ok (none,
        { cache := [],
          gate := { request_timestamps := [0, 11/10, 11/5], now := 23/10 } },
        DATA_LIMITS.max_retries) ∧
    make_request (fun _ _ => .httpError 500) endpoint_name kwargs
        (initClient 0) =
      .ok (none,
        { cache := [],
          gate := { request_timestamps := [0, 1/10, 1/5], now := 3/10 } },
        DATA_LIMITS.max_retries) ∧
    (23 : ℚ)/10 = 3 * inter_request_delay + 2 * DATA_LIMITS.retry_delay := by
  obtain ⟨p, hp⟩ := Option.isSome_iff_exists.mp hknown
  refine ⟨?_, ?_, ?_⟩
  · simp only [make_request, cacheFind, dictFind, initClient, initGate,
      List.find?_nil, Option.map_none', get_endpoint_url, hp]
    norm_num [attemptLoop, rate_limit_def, sleep, inter_request_delay,
      rate_limit_window, max_requests_per_minute, DATA_LIMITS.max_retries,
      DATA_LIMITS.retry_delay, List.filter]
  · simp only [make_request, cacheFind, dictFind, initClient, initGate,
      List.find?_nil, Option.map_none', get_endpoint_url, hp]
    norm_num [attemptLoop, rate_limit_def, sleep, inter_request_delay,
      rate_limit_window, max_requests_per_minute, DATA_LIMITS.max_retries,
      DATA_LIMITS.retry_delay, List.filter]
  · norm_num [inter_request_delay, DATA_LIMITS.retry_delay]

/-- C8, witness: the amended theorem applied to AIRPORT_INFO for DEL. -/
theorem c8_witness :
    make_request (fun _ _ => .netError) "AIRPORT_INFO" [("code", "DEL")]
        (initClient 0) =
      .ok (none,
        { cache := [],
          gate := { request_timestamps := [0, 11/10, 11/5], now := 23/10 } },
        DATA_LIMITS.max_retries) :=
  (c8_retries_twice_then_gives_up "AIRPORT_INFO" [("code", "DEL")] rfl).1

/-- C9, counterexample. SmartDataFetcher._store_airport on the minimal
payload fills `name` with the fallback `Airport DEL`, not with the empty
string the claim states for all non-key fields. -/
theorem c9_fetcher_defaults_name_nonempty :
    ((SmartDataFetcher.store_airport "DEL" minimalAirport []).2).map
        AirportRowF.name = ["Airport DEL"] ∧
    "Airport DEL" ≠ "" :=
  ⟨rfl, by decide⟩

/-- C9, amended. Storing the payload with only `iata = DEL` never throws in
either implementation and yields exactly one row keyed DEL with empty/zero
city, country, continent, timezone, latitude and longitude; both code
columns fall back to the supplied code; `name` is empty in
DataOrchestrator._store_airport but defaults to `Airport DEL` in
SmartDataFetcher._store_airport. -/
theorem c9_minimal_payload_tolerated :
    SmartDataFetcher.store_airport "DEL" minimalAirport [] =
      (true, [{ icao_code := "DEL", iata_code := "DEL", name := "Airport DEL",
                city := "", country := "", continent := "", latitude := 0,
                longitude := 0, timezone := "" }]) ∧
    DataOrchestrator.store_airport "DEL" minimalAirport [] =
      [{ icao_code := .str "DEL", iata_code := .str "DEL", name := .str "",
         city := .str "", country := .str "", continent := .str "",
         latitude := .num 0, longitude := .num 0, timezone := .str "" }] :=
  ⟨rfl, rfl⟩

/-- C10. URL templating: a known endpoint never rejects its keyword set —
whatever the supplied parameters, the builder returns a URL in which only
the placeholders matching a supplied keyword are substituted and the rest
stay literally in the path (shown concretely for AIRPORT_SCHEDULE with
only `code` supplied); an unknown endpoint name raises ValueError. -/
theorem c10_url_templating :
    (∀ (endpoint_name : String) (kwargs : List (String × String)),
        (ENDPOINTS.find? (fun p => p.1 == endpoint_name)).isSome = true →
        (get_endpoint_url endpoint_name kwargs).isOk = true) ∧
    get_endpoint_url "AIRPORT_SCHEDULE" [("code", "DEL")] =
      .ok ("https://aerodatabox.p.rapidapi.com/flights/airports/DEL/\x7bdirection\x7d") ∧
    get_endpoint_url "AIRPORT_SCHEDULE" [] =
      .ok ("https://aerodatabox.p.rapidapi.com/flights/airports/\x7bcode\x7d/\x7bdirection\x7d") ∧
    get_endpoint_url "NO_SUCH_ENDPOINT" [("code", "DEL")] =
      .error "Unknown endpoint: NO_SUCH_ENDPOINT" := by
  refine ⟨?_, rfl, rfl, rfl⟩
  intro endpoint_name kwargs h
  unfold get_endpoint_url
  match hf : ENDPOINTS.find? (fun p => p.1 == endpoint_name) with
  | none => rw [hf] at h; simp at h
  | some p => rw [hf]; rfl

/-- C10, witness: the theorem applied at AIRPORT_INFO with no parameters at
all — the missing path parameter is not rejected. -/
theorem c10_witness :
    (get_endpoint_url "AIRPORT_INFO" []).isOk = true :=
  c10_url_templating.1 "AIRPORT_INFO" [] rfl

end AirTracker
